import Mathlib

/-!
# Verification of the Novalayer order ingestion and reconciliation pipeline

Shallow embedding of the order store update logic (`server/storage.ts`,
`DatabaseStorage.updateOrder`), the shipping-manifest reconciliation loop
(`server/routes.ts`, `POST /api/orders/import-shipping`), the field mappers
(`mapAmazonRecord`, `mapEbayRecord`, `mapOrderToSchema`), the batch import
with in-file deduplication (`POST /api/orders/import` plus
`DatabaseStorage.createOrders`), the delimiter sniffing (`detectDelimiter`)
and the rate-limit retry wrapper (`fetchWithRetry`).

JavaScript strings are modelled as Lean `String`; a nullable string column
is `Option String` (`none` = SQL/JS null); a field that may be absent from
a partial-update payload (JS `undefined`) is wrapped in one more `Option`.
-/

/-! ## JavaScript string primitives used by the pipeline -/

/-- Characters treated as whitespace by the JS regexes (`\s`) and `trim`
that appear in the source; the inputs of interest are ASCII. -/
def isWsChar (c : Char) : Bool :=
  c = ' ' || c = '\t' || c = '\n' || c = '\r'

/-- JS `String.prototype.trim`: drop whitespace from both ends. -/
def trimStr (s : String) : String :=
  ⟨((s.data.dropWhile isWsChar).reverse.dropWhile isWsChar).reverse⟩

/-- JS `String.prototype.toLowerCase` restricted to the alphabet the
pipeline compares (ASCII case folding). -/
def lowerStr (s : String) : String :=
  ⟨s.data.map Char.toLower⟩

/-- `x.replace(/[\s\-\+]/g, "")`: strip whitespace, hyphens and plus signs,
as done to both phone numbers before comparison in the fuzzy matcher. -/
def stripPhone (s : String) : String :=
  ⟨s.data.filter (fun c => !(isWsChar c || c = '-' || c = '+'))⟩

/-- JS `s.slice(-n)`: the last `n` characters (all of `s` when shorter). -/
def takeRightStr (s : String) (n : Nat) : String :=
  ⟨(s.data.reverse.take n).reverse⟩

/-- JS `s.endsWith(suffix)`. -/
def endsWithStr (s suffix : String) : Bool :=
  s.data.reverse.take suffix.data.length = suffix.data.reverse

/-- JS `a || b` on strings: `b` when `a` is empty (falsy), else `a`. -/
def jsOr (a b : String) : String :=
  if a = "" then b else a

/-- JS `s || null`: `null` for the empty string, as in `carrier || null`. -/
def jsOrNull (s : String) : Option String :=
  if s = "" then none else some s

/-- JS truthiness of a nullable string: `null` and `""` are falsy. -/
def truthy : Option String → Bool
  | none => false
  | some s => s ≠ ""

/-! ## Canonical order records and the store update

`Order` carries the columns of the `orders` table (`shared/schema.ts`)
that the update and reconciliation logic reads or writes. -/

/-- A stored canonical order row. -/
structure Order where
  id : Nat
  orderId : String
  orderItemId : String
  firstName : String
  lastName : String
  phone : Option String
  city : Option String
  shippingCarrier : Option String
  trackingNumber : Option String
  shippingDate : Option String
  shipper : Option String
  status : String
deriving Repr, DecidableEq

/-- A partial update payload (`Partial<InsertOrder>` as sent by the PATCH
endpoint and the shipping import): the outer `Option` is JS `undefined`
(field absent from the payload), the inner one is null. -/
structure UpdateData where
  shippingCarrier : Option (Option String) := none
  trackingNumber : Option (Option String) := none
  shippingDate : Option (Option String) := none
  shipper : Option (Option String) := none
  status : Option String := none
deriving Repr, DecidableEq

/-- `DatabaseStorage.updateOrder` (storage module): spread the payload over
the current row, then recompute `status` from the merged carrier, tracking
number and shipping date — `"Versendet"` when all three are truthy,
`"Offen"` otherwise. The payload's own `status` is overwritten. -/
def updateOrder (current : Order) (data : UpdateData) : Order :=
  let carrier := data.shippingCarrier.getD current.shippingCarrier
  let tracking := data.trackingNumber.getD current.trackingNumber
  let shipDate := data.shippingDate.getD current.shippingDate
  { current with
    shippingCarrier := carrier
    trackingNumber := tracking
    shippingDate := shipDate
    shipper := data.shipper.getD current.shipper
    status :=
      if truthy carrier && truthy tracking && truthy shipDate then
        "Versendet"
      else
        "Offen" }

/-- C1: on every update of an existing order the stored status is
recomputed from the merged shipping fields (incoming partial update
applied over the current record): it is `"Versendet"` iff the merged
`shippingCarrier`, `trackingNumber` and `shippingDate` are all non-empty,
and `"Offen"` otherwise; the previous status is never carried over. -/
theorem updateOrder_status_derived (current : Order) (data : UpdateData) :
    (updateOrder current data).status =
      (if truthy (data.shippingCarrier.getD current.shippingCarrier) &&
          truthy (data.trackingNumber.getD current.trackingNumber) &&
          truthy (data.shippingDate.getD current.shippingDate) then
        "Versendet"
      else
        "Offen") ∧
    ((updateOrder current data).status = "Versendet" ↔
      (truthy (data.shippingCarrier.getD current.shippingCarrier) = true ∧
       truthy (data.trackingNumber.getD current.trackingNumber) = true ∧
       truthy (data.shippingDate.getD current.shippingDate) = true)) := by
  refine ⟨rfl, ?_⟩
  simp only [updateOrder]
  rcases h1 : truthy (data.shippingCarrier.getD current.shippingCarrier) <;>
    rcases h2 : truthy (data.trackingNumber.getD current.trackingNumber) <;>
    rcases h3 : truthy (data.shippingDate.getD current.shippingDate) <;>
      simp [h1, h2, h3]

/-- C10: the update interface ignores any status supplied by the caller —
a payload that explicitly sets `status` produces exactly the same stored
row as the payload without it, and the stored status is always the derived
one, so status can never be set directly through the update interface. -/
theorem updateOrder_ignores_payload_status (current : Order)
    (data : UpdateData) (s : String) :
    updateOrder current { data with status := some s } =
      updateOrder current data ∧
    (updateOrder current { data with status := some s }).status =
      (if truthy (data.shippingCarrier.getD current.shippingCarrier) &&
          truthy (data.trackingNumber.getD current.trackingNumber) &&
          truthy (data.shippingDate.getD current.shippingDate) then
        "Versendet"
      else
        "Offen") := by
  exact ⟨rfl, rfl⟩

/-! ## Fuzzy phone matching (shipping-manifest reconciliation) -/

/-- The phone predicate of the fuzzy candidate filter
(`POST /api/orders/import-shipping`): both inputs are already stripped of
whitespace, hyphens and plus signs; it requires both to be non-empty, the
order phone to end with the last six characters of the manifest phone, and
that last-six slice to actually have six characters. -/
def phoneMatch (csvPhone orderPhone : String) : Bool :=
  csvPhone ≠ "" && orderPhone ≠ "" &&
    endsWithStr orderPhone (takeRightStr csvPhone 6) &&
    decide (6 ≤ (takeRightStr csvPhone 6).length)

/-- Length of the longest common prefix of two character lists; applied to
reversed strings it measures the longest common suffix. -/
def commonRunLen : List Char → List Char → Nat
  | a :: as, b :: bs => if a = b then commonRunLen as bs + 1 else 0
  | _, _ => 0

theorem le_commonRunLen_of_take_eq :
    ∀ (n : Nat) (l₁ l₂ : List Char), l₁.take n = l₂.take n →
      n ≤ l₁.length → n ≤ commonRunLen l₁ l₂ := by
  intro n
  induction n with
  | zero => intro l₁ l₂ _ _; exact Nat.zero_le _
  | succ k ih =>
    intro l₁ l₂ htake hlen
    match l₁, l₂ with
    | [], _ => simp at hlen
    | a :: as, [] => simp at htake
    | a :: as, b :: bs =>
      simp only [List.take_succ_cons, List.cons.injEq] at htake
      simp only [List.length_cons, Nat.succ_le_succ_iff] at hlen
      simp only [commonRunLen, htake.1, if_pos]
      exact Nat.succ_le_succ (ih as bs htake.2 hlen)

theorem phoneMatch_core (sp sq : String) (h : phoneMatch sp sq = true) :
    6 ≤ sp.data.length ∧
      sq.data.reverse.take 6 = sp.data.reverse.take 6 ∧
      6 ≤ commonRunLen sp.data.reverse sq.data.reverse := by
  simp only [phoneMatch, Bool.and_eq_true, decide_eq_true_eq] at h
  obtain ⟨⟨⟨-, -⟩, hend⟩, hlen⟩ := h
  have hlen6 : (takeRightStr sp 6).length = min 6 sp.data.length := by
    show ((sp.data.reverse.take 6).reverse).length = min 6 sp.data.length
    rw [List.length_reverse, List.length_take, List.length_reverse]
  rw [hlen6] at hlen
  have hsp : 6 ≤ sp.data.length := (Nat.le_min.mp hlen).2
  have hd6 : (takeRightStr sp 6).data.length = 6 := by
    show ((sp.data.reverse.take 6).reverse).length = 6
    rw [List.length_reverse, List.length_take, List.length_reverse]
    exact Nat.min_eq_left hsp
  simp only [endsWithStr, decide_eq_true_eq] at hend
  rw [hd6] at hend
  have hrd : (takeRightStr sp 6).data.reverse = sp.data.reverse.take 6 := by
    show ((sp.data.reverse.take 6).reverse).reverse = sp.data.reverse.take 6
    rw [List.reverse_reverse]
  rw [hrd] at hend
  refine ⟨hsp, hend, ?_⟩
  refine le_commonRunLen_of_take_eq 6 _ _ hend.symm ?_
  rw [List.length_reverse]
  exact hsp

/-- C4: the fuzzy phone predicate holds between a manifest phone and an
order phone only when, after stripping spaces, hyphens and plus signs from
both, the manifest phone has at least six digits and both numbers share
the same last six characters (part one, for phones that are digit strings
after stripping, as phone numbers are); and for every pair whose stripped
forms agree only on a suffix of five or fewer characters, the predicate
never holds (part two). -/
theorem phoneMatch_six_digit_boundary (p q : String) :
    ((∀ c ∈ (stripPhone (trimStr p)).data, c.isDigit = true) →
      phoneMatch (stripPhone (trimStr p)) (stripPhone q) = true →
      6 ≤ ((stripPhone (trimStr p)).data.filter Char.isDigit).length ∧
        takeRightStr (stripPhone (trimStr p)) 6 =
          takeRightStr (stripPhone q) 6) ∧
    (commonRunLen (stripPhone (trimStr p)).data.reverse
        (stripPhone q).data.reverse ≤ 5 →
      phoneMatch (stripPhone (trimStr p)) (stripPhone q) = false) := by
  constructor
  · intro hdig hm
    obtain ⟨hsp, hend, -⟩ := phoneMatch_core _ _ hm
    constructor
    · rw [List.filter_eq_self.mpr hdig]
      exact hsp
    · simp only [takeRightStr]
      exact congrArg String.mk (congrArg List.reverse hend.symm)
  · intro hshort
    by_contra hm
    rw [Bool.not_eq_false] at hm
    obtain ⟨-, -, hrun⟩ := phoneMatch_core _ _ hm
    omega

/-- Witness for C4: `+49 170 123456` against `0049170123456` satisfies the
predicate and the conclusions of part one; `12345` against `912345` agree
on a five-character suffix only and fail the predicate. -/
theorem phoneMatch_six_digit_boundary_witness :
    (6 ≤ ((stripPhone (trimStr "+49 170 123456")).data.filter
        Char.isDigit).length ∧
      takeRightStr (stripPhone (trimStr "+49 170 123456")) 6 =
        takeRightStr (stripPhone "0049170123456") 6) ∧
    phoneMatch (stripPhone (trimStr "12345")) (stripPhone "912345") =
      false :=
  ⟨(phoneMatch_six_digit_boundary "+49 170 123456" "0049170123456").1
      (by decide) (by decide),
    (phoneMatch_six_digit_boundary "12345" "912345").2 (by decide)⟩

/-! ## Shipping-manifest import (`POST /api/orders/import-shipping`) -/

/-- One parsed manifest row, restricted to the six columns the route
reads (`Referenz`, `Paketnummer Lieferant`, `Lieferant`, `Name`, `Tel`,
`Ort`); a column absent from the file is the empty string, exactly the
value `(r[k] || "")` yields. -/
structure ShippingRow where
  referenz : String := ""
  paketnummer : String := ""
  lieferant : String := ""
  name : String := ""
  tel : String := ""
  ort : String := ""
deriving Repr, DecidableEq

/-- Running state of one shipping import: the stored orders plus the four
report accumulators (`updated`, `notFound`, `fuzzyMatched`, `ambiguous`). -/
structure ReconcileState where
  store : List Order
  updated : Nat
  notFound : List String
  fuzzyMatched : List String
  ambiguous : List String
deriving Repr, DecidableEq

/-- Modelled from the spec: `storage.getOrdersByOrderId` is a store
operation whose implementation is not under `src/` (only its caller is);
per the reconciler design it is the exact `orderId` lookup, returning
every stored order whose `orderId` equals the reference. -/
def getOrdersByOrderId (store : List Order) (referenz : String) :
    List Order :=
  store.filter (fun o => o.orderId = referenz)

/-- The fuzzy candidate filter of the shipping import: at least two of the
three relaxed predicates (case-insensitive full-name equality, shared
six-character phone suffix, case-insensitive city equality) must hold. -/
def candMatch (csvName csvPhone csvOrt : String) (o : Order) : Bool :=
  let fullName := lowerStr (o.firstName ++ " " ++ o.lastName)
  let orderPhone := stripPhone (o.phone.getD "")
  let orderCity := lowerStr (o.city.getD "")
  let nameMatch := csvName ≠ "" && fullName = csvName
  let phoneM := phoneMatch csvPhone orderPhone
  let cityMatch := csvOrt ≠ "" && orderCity = csvOrt
  nameMatch && phoneM || nameMatch && cityMatch || phoneM && cityMatch

/-- The partial update a resolved manifest row sends to the store: carrier
and tracking number (null when blank), today's date stamp, and the fixed
shipper tag. -/
def shipUpdateData (carrier trackingNum today : String) : UpdateData :=
  { shippingCarrier := some (jsOrNull carrier)
    trackingNumber := some (jsOrNull trackingNum)
    shippingDate := some (some today)
    shipper := some (some "LogoiX")
    status := none }

/-- Apply the row's update to the stored row with the given id (the store
table mapped through `updateOrder`). -/
def updateById (store : List Order) (id : Nat) (d : UpdateData) :
    List Order :=
  store.map (fun e => if e.id = id then updateOrder e d else e)

/-- The per-row update loop: every matching order is updated and the
`updated` counter incremented once per order. -/
def applyMatches (d : UpdateData) (matching : List Order)
    (st : ReconcileState) : ReconcileState :=
  matching.foldl
    (fun s o =>
      { s with store := updateById s.store o.id d, updated := s.updated + 1 })
    st

/-- The human-readable fuzzy-match explanation recorded in the report. -/
def fuzzyExplain (referenz : String) (o : Order) : String :=
  referenz ++ " → " ++ o.orderId ++ " (" ++ o.firstName ++ " " ++
    o.lastName ++ ")"

/-- One iteration of the shipping-import row loop: skip blank references,
try the exact `orderId` lookup on the live store, fall back to the fuzzy
candidate search over the initial order snapshot when name or phone hints
exist, resolve a unique candidate, mark several candidates ambiguous,
record unmatched references, and update every resolved order. -/
def processRow (allOrders : List Order) (today : String)
    (st : ReconcileState) (r : ShippingRow) : ReconcileState :=
  if trimStr r.referenz = "" then st
  else if getOrdersByOrderId st.store (trimStr r.referenz) = [] then
    if lowerStr (trimStr r.name) ≠ "" ∨ stripPhone (trimStr r.tel) ≠ "" then
      match allOrders.filter
          (candMatch (lowerStr (trimStr r.name)) (stripPhone (trimStr r.tel))
            (lowerStr (trimStr r.ort))) with
      | [c] =>
        applyMatches
          (shipUpdateData (trimStr r.lieferant) (trimStr r.paketnummer)
            today)
          [c]
          { st with fuzzyMatched :=
              st.fuzzyMatched ++ [fuzzyExplain (trimStr r.referenz) c] }
      | [] => { st with notFound := st.notFound ++ [trimStr r.referenz] }
      | _ :: _ :: _ =>
        { st with ambiguous := st.ambiguous ++ [trimStr r.referenz] }
    else
      { st with notFound := st.notFound ++ [trimStr r.referenz] }
  else
    applyMatches
      (shipUpdateData (trimStr r.lieferant) (trimStr r.paketnummer) today)
      (getOrdersByOrderId st.store (trimStr r.referenz)) st

/-- The whole shipping import: the candidate snapshot (`getAllOrders`,
modelled from the spec as the full stored order list, taken once before
the loop) stays fixed while the live store is threaded through the rows. -/
def importShipping (rows : List ShippingRow) (store : List Order)
    (today : String) : ReconcileState :=
  rows.foldl (processRow store today)
    { store := store, updated := 0, notFound := [], fuzzyMatched := [],
      ambiguous := [] }

theorem applyMatches_updated (d : UpdateData) :
    ∀ (matching : List Order) (st : ReconcileState),
      (applyMatches d matching st).updated = st.updated + matching.length := by
  intro matching
  induction matching with
  | nil => intro st; rfl
  | cons o os ih =>
    intro st
    show (applyMatches d os _).updated = _
    rw [ih]
    simp [List.length_cons]
    omega

/-- A stored order in Vienna used in the conservatism scenario. -/
def ordCityA : Order :=
  { id := 1, orderId := "A1", orderItemId := "IA", firstName := "Anna",
    lastName := "Alpha", phone := some "111222333", city := some "Wien",
    shippingCarrier := none, trackingNumber := none, shippingDate := none,
    shipper := none, status := "Offen" }

/-- A second stored order in the same city. -/
def ordCityB : Order :=
  { id := 2, orderId := "B2", orderItemId := "IB", firstName := "Bernd",
    lastName := "Beta", phone := some "444555666", city := some "Wien",
    shippingCarrier := none, trackingNumber := none, shippingDate := none,
    shipper := none, status := "Offen" }

/-- A manifest row whose reference matches no `orderId` and whose hints
match the two stored orders only on city. -/
def rowCityOnly : ShippingRow :=
  { referenz := "R9", paketnummer := "P9", lieferant := "GLS",
    name := "Carla Gamma", tel := "", ort := "Wien" }

/-- Counterexample to C2: with two stored orders sharing the city and a
manifest row matching them only on city (name and phone match neither),
the reference lands in `notFound`, not in `ambiguous` — city alone
satisfies none of the required two-of-three predicate pairs, so the
candidate set is empty. No order is updated. -/
theorem importShipping_city_only_lands_in_notFound :
    (importShipping [rowCityOnly] [ordCityA, ordCityB] "2024-05-01").ambiguous
        = [] ∧
      (importShipping [rowCityOnly] [ordCityA, ordCityB]
          "2024-05-01").notFound = ["R9"] ∧
      (importShipping [rowCityOnly] [ordCityA, ordCityB] "2024-05-01").store
        = [ordCityA, ordCityB] ∧
      (importShipping [rowCityOnly] [ordCityA, ordCityB]
          "2024-05-01").updated = 0 := by
  decide

/-- C2 (amended): in the shipping import, a row whose non-blank reference
resolves no exact `orderId` match and whose name and phone hints match no
order in the snapshot is reported in `notFound` (not `ambiguous`) and
leaves the store, the `updated` count and the other report lists
untouched; this covers in particular the two-orders-same-city scenario,
since a city-only overlap satisfies no two-of-three predicate pair. -/
theorem processRow_no_name_phone_match_notFound
    (allOrders : List Order) (today : String) (st : ReconcileState)
    (r : ShippingRow)
    (href : trimStr r.referenz ≠ "")
    (hexact : getOrdersByOrderId st.store (trimStr r.referenz) = [])
    (hname : ∀ o ∈ allOrders,
      lowerStr (o.firstName ++ " " ++ o.lastName) ≠ lowerStr (trimStr r.name))
    (hphone : ∀ o ∈ allOrders,
      phoneMatch (stripPhone (trimStr r.tel)) (stripPhone (o.phone.getD ""))
        = false) :
    processRow allOrders today st r =
      { st with notFound := st.notFound ++ [trimStr r.referenz] } := by
  have hcand : allOrders.filter
      (candMatch (lowerStr (trimStr r.name)) (stripPhone (trimStr r.tel))
        (lowerStr (trimStr r.ort))) = [] := by
    rw [List.filter_eq_nil_iff]
    intro o ho
    simp [candMatch, hname o ho, hphone o ho]
  simp only [processRow]
  rw [if_neg href, if_pos hexact]
  by_cases hc : lowerStr (trimStr r.name) ≠ "" ∨ stripPhone (trimStr r.tel) ≠ ""
  · rw [if_pos hc, hcand]
  · rw [if_neg hc]

/-- Witness for C2's amended theorem: the two-orders-same-city scenario
instantiated concretely. -/
theorem processRow_no_name_phone_match_notFound_witness :
    processRow [ordCityA, ordCityB] "2024-05-01"
        { store := [ordCityA, ordCityB], updated := 0, notFound := [],
          fuzzyMatched := [], ambiguous := [] } rowCityOnly =
      { store := [ordCityA, ordCityB], updated := 0, notFound := ["R9"],
        fuzzyMatched := [], ambiguous := [] } := by
  have h := processRow_no_name_phone_match_notFound [ordCityA, ordCityB]
    "2024-05-01"
    { store := [ordCityA, ordCityB], updated := 0, notFound := [],
      fuzzyMatched := [], ambiguous := [] }
    rowCityOnly (by decide) (by decide) (by decide) (by decide)
  rw [h]
  decide

/-- The single stored order of the double-count scenario. -/
def ordR1 : Order :=
  { id := 1, orderId := "R1", orderItemId := "I1", firstName := "Max",
    lastName := "Muster", phone := some "0123456789",
    city := some "Berlin", shippingCarrier := none, trackingNumber := none,
    shippingDate := none, shipper := none, status := "Offen" }

/-- A manifest row referencing that order by its exact `orderId`. -/
def rowR1 : ShippingRow :=
  { referenz := "R1", paketnummer := "PKT1", lieferant := "GLS",
    name := "Max Muster", tel := "", ort := "Berlin" }

/-- Counterexample to C5: two manifest rows carrying the same reference
that resolves to the same single stored order yield `updated = 2` in a
single import run — the one underlying canonical order is counted twice,
once per row. -/
theorem importShipping_counts_same_order_twice :
    (importShipping [rowR1, rowR1] [ordR1] "2024-05-01").updated = 2 ∧
      (importShipping [rowR1, rowR1] [ordR1] "2024-05-01").store.length
        = 1 := by
  decide

/-- C5 (amended): in one shipping-import run the `updated` count is
incremented once per (manifest row, matching order) update operation — a
resolved row adds exactly the number of its exact `orderId` matches, so an
order resolved by several rows with the same reference is counted once per
such row rather than once overall. -/
theorem processRow_updated_counts_per_row_match
    (allOrders : List Order) (today : String) (st : ReconcileState)
    (r : ShippingRow)
    (href : trimStr r.referenz ≠ "")
    (hmatch : getOrdersByOrderId st.store (trimStr r.referenz) ≠ []) :
    (processRow allOrders today st r).updated =
      st.updated + (getOrdersByOrderId st.store (trimStr r.referenz)).length
    := by
  simp only [processRow]
  rw [if_neg href, if_neg hmatch]
  exact applyMatches_updated _ _ _

/-- Witness for C5's amended theorem: one row, one exact match, counter
increased by one. -/
theorem processRow_updated_counts_per_row_match_witness :
    (processRow [ordR1] "2024-05-01"
        { store := [ordR1], updated := 0, notFound := [],
          fuzzyMatched := [], ambiguous := [] } rowR1).updated =
      0 + (getOrdersByOrderId [ordR1] (trimStr rowR1.referenz)).length := by
  exact processRow_updated_counts_per_row_match [ordR1] "2024-05-01"
    { store := [ordR1], updated := 0, notFound := [], fuzzyMatched := [],
      ambiguous := [] } rowR1 (by decide) (by decide)

/-! ## Field mappers (`mapAmazonRecord`, `mapEbayRecord`,
`mapOrderToSchema`)

Date normalisation and price parsing call into the host environment
(`new Date(...)`, `parseFloat`); the mappers are therefore parameterised
over those two string transformers, which no claim inspects. -/

/-- A parsed tabular row: column name to string value; a column absent
from the file reads as the empty string, exactly what `r[k] || ...`
observes. -/
abbrev Row := List (String × String)

/-- Read a column, empty string when absent. -/
def getS (r : Row) (k : String) : String :=
  (r.lookup k).getD ""

/-- Numeric value of a decimal digit character. -/
def digitVal (c : Char) : Nat :=
  c.toNat - 48

/-- Value of a non-empty decimal digit list, most significant first. -/
def natOfDigits (l : List Char) : Nat :=
  l.foldl (fun acc c => acc * 10 + digitVal c) 0

/-- The maximal digit prefix of a character list, `none` when there is no
leading digit (JS `parseInt` yields `NaN` there). -/
def natPrefixVal (l : List Char) : Option Nat :=
  match l.takeWhile Char.isDigit with
  | [] => none
  | ds => some (natOfDigits ds)

/-- JS `parseInt(s, 10)`: skip leading whitespace, accept one optional
sign, then read the maximal digit prefix; `none` models `NaN`. -/
def parseIntJS (s : String) : Option Int :=
  match s.data.dropWhile isWsChar with
  | '+' :: rest => (natPrefixVal rest).map (fun n => (n : Int))
  | '-' :: rest => (natPrefixVal rest).map (fun n => -(n : Int))
  | rest => (natPrefixVal rest).map (fun n => (n : Int))

/-- `parseInt(x, 10) || 1`: `NaN` and `0` are falsy and default to 1. -/
def parseIntOr1 (s : String) : Int :=
  match parseIntJS s with
  | none => 1
  | some n => if n = 0 then 1 else n

/-- Maximal runs of a character list between whitespace; concatenating a
run boundary at every whitespace character, so `/\s+/` splitting is the
non-empty runs. -/
def wordChunks : List Char → List (List Char)
  | [] => [[]]
  | c :: cs =>
    match wordChunks cs with
    | [] => [[c]]
    | run :: rest =>
      if isWsChar c then [] :: run :: rest else (c :: run) :: rest

/-- `fullName.trim().split(/\s+/)` restricted to its observable tokens
(the JS call returns `[""]` on the empty string, which the source treats
exactly like no token at all). -/
def splitWs (s : String) : List String :=
  ((wordChunks s.data).filter (fun l => l ≠ [])).map (fun l => ⟨l⟩)

/-- `splitName`: last whitespace-delimited token is the last name, the
remainder re-joined with single spaces is the first name; a single token
yields an empty last name. -/
def splitName (fullName : String) : String × String :=
  match splitWs (trimStr fullName) with
  | [] => ("", "")
  | [p] => (p, "")
  | p :: q :: rest =>
    (String.intercalate " " ((p :: q :: rest).dropLast),
      (p :: q :: rest).getLastD "")

/-- A freshly mapped order candidate (`InsertOrder` as the three mappers
produce it). -/
structure Candidate where
  platform : String
  purchaseDate : String
  orderId : String
  orderItemId : String
  email : String
  phone : String
  firstName : String
  lastName : String
  street : String
  contactPerson : Option String
  city : String
  postalCode : String
  country : String
  sku : String
  productName : String
  quantity : Int
  price : Option String
  shippingCost : Option String
  customerType : String
  shippingCarrier : Option String
  trackingNumber : Option String
  shippingDate : Option String
  status : String
deriving Repr, DecidableEq

/-- `mapAmazonRecord` (`server/routes.ts`): the Amazon-dialect mapper,
parameterised over the date normaliser and price parser. -/
def mapAmazonRecord (normDate priceF : String → String) (r : Row) :
    Candidate :=
  let nm := splitName (jsOr (getS r "recipient-name") (getS r "buyer-name"))
  let contactPerson := trimStr (getS r "ship-address-2")
  { platform := "Amazon"
    purchaseDate := normDate (getS r "purchase-date")
    orderId := getS r "order-id"
    orderItemId := jsOr (getS r "order-item-id") (getS r "order-id")
    email := getS r "buyer-email"
    phone := getS r "buyer-phone-number"
    firstName := nm.1
    lastName := nm.2
    street := getS r "ship-address-1"
    contactPerson := jsOrNull contactPerson
    city := getS r "ship-city"
    postalCode := getS r "ship-postal-code"
    country := getS r "ship-country"
    sku := getS r "sku"
    productName := getS r "product-name"
    quantity := parseIntOr1 (jsOr (getS r "quantity-purchased") "1")
    price := jsOrNull (priceF (jsOr (getS r "item-price") (getS r "price")))
    shippingCost :=
      jsOrNull (priceF (jsOr (getS r "shipping-price")
        (getS r "shipping-fee")))
    customerType := if contactPerson = "" then "Privat" else "Firma"
    shippingCarrier := none
    trackingNumber := none
    shippingDate := none
    status := "Offen" }

/-- `mapEbayRecord` (`server/routes.ts`): the eBay-dialect mapper. Note
that it copies `Versandservice` and `Sendungsnummer` into the shipping
fields. -/
def mapEbayRecord (parseDate priceF : String → String) (r : Row) :
    Candidate :=
  let nm := splitName
    (jsOr (getS r "Name des Empfängers") (getS r "Name des Käufers"))
  let contactPerson :=
    jsOr (trimStr (getS r "Adresse 2 des Empfängers"))
      (jsOr (trimStr (getS r "Adresse 2 des Käufers")) "")
  let orderId := getS r "Bestellnummer"
  let lineItemId :=
    jsOr (getS r "Verkaufsprotokollnummer")
      (jsOr (getS r "Transaktionsnummer") orderId)
  { platform := "eBay"
    purchaseDate :=
      parseDate (jsOr (getS r "Verkauft am") (getS r "Zahlungsdatum"))
    orderId := orderId
    orderItemId := if lineItemId = "" then "" else "ebay-" ++ lineItemId
    email := getS r "E-Mail des Käufers"
    phone := getS r "Telefonnummer des Empfängers"
    firstName := nm.1
    lastName := nm.2
    street :=
      jsOr (getS r "Adresse 1 des Empfängers")
        (getS r "Adresse 1 des Käufers")
    contactPerson := jsOrNull contactPerson
    city := jsOr (getS r "Versand nach - Ort") (getS r "Wohnort des Käufers")
    postalCode :=
      jsOr (getS r "Versand nach - PLZ") (getS r "PLZ des Käufers")
    country :=
      jsOr (getS r "Versand nach - Land") (getS r "Land des Käufers")
    sku := getS r "Bestandseinheit"
    productName := getS r "Angebotstitel"
    quantity := parseIntOr1 (jsOr (getS r "Anzahl") (jsOr (getS r "Menge") "1"))
    price :=
      jsOrNull (priceF (jsOr (getS r "Verkauft für") (getS r "Gesamtbetrag")))
    shippingCost := jsOrNull (priceF (getS r "Verpackung und Versand"))
    customerType := if contactPerson = "" then "Privat" else "Firma"
    shippingCarrier := jsOrNull (getS r "Versandservice")
    trackingNumber := jsOrNull (getS r "Sendungsnummer")
    shippingDate := none
    status := "Offen" }

/-- `BuyerInfo` of the remote order payload. -/
structure RemoteBuyerInfo where
  buyerEmail : Option String := none
  buyerName : Option String := none
deriving Repr, DecidableEq

/-- `ShippingAddress` of the remote order payload. -/
structure RemoteAddress where
  name : Option String := none
  addressLine1 : Option String := none
  addressLine2 : Option String := none
  city : Option String := none
  stateOrRegion : Option String := none
  postalCode : Option String := none
  countryCode : Option String := none
  phone : Option String := none
deriving Repr, DecidableEq

/-- A remote money amount (`{ Amount, CurrencyCode }`). -/
structure RemoteMoney where
  amount : Option String := none
  currencyCode : Option String := none
deriving Repr, DecidableEq

/-- A remote order header (`AmazonOrder`). -/
structure AmazonOrder where
  amazonOrderId : String
  purchaseDate : String := ""
  orderStatus : String := ""
  buyerInfo : Option RemoteBuyerInfo := none
  shippingAddress : Option RemoteAddress := none
deriving Repr, DecidableEq

/-- A remote order line item (`AmazonOrderItem`). -/
structure AmazonOrderItem where
  orderItemId : String
  sellerSKU : Option String := none
  title : Option String := none
  quantityOrdered : Int := 0
  itemPrice : Option RemoteMoney := none
  itemTax : Option RemoteMoney := none
  shippingPrice : Option RemoteMoney := none
deriving Repr, DecidableEq

/-- `mapOrderToSchema` (remote client): the remote-variant field mapper. -/
def mapOrderToSchema (o : AmazonOrder) (i : AmazonOrderItem) : Candidate :=
  let nm := splitName
    (jsOr ((o.shippingAddress.bind (fun a => a.name)).getD "")
      (jsOr ((o.buyerInfo.bind (fun b => b.buyerName)).getD "") ""))
  let contactPerson :=
    trimStr ((o.shippingAddress.bind (fun a => a.addressLine2)).getD "")
  { platform := "Amazon"
    purchaseDate := jsOr o.purchaseDate ""
    orderId := jsOr o.amazonOrderId ""
    orderItemId := jsOr i.orderItemId o.amazonOrderId
    email := (o.buyerInfo.bind (fun b => b.buyerEmail)).getD ""
    phone := (o.shippingAddress.bind (fun a => a.phone)).getD ""
    firstName := nm.1
    lastName := nm.2
    street := (o.shippingAddress.bind (fun a => a.addressLine1)).getD ""
    contactPerson := jsOrNull contactPerson
    city := (o.shippingAddress.bind (fun a => a.city)).getD ""
    postalCode := (o.shippingAddress.bind (fun a => a.postalCode)).getD ""
    country := (o.shippingAddress.bind (fun a => a.countryCode)).getD ""
    sku := i.sellerSKU.getD ""
    productName := i.title.getD ""
    quantity := if i.quantityOrdered = 0 then 1 else i.quantityOrdered
    price := jsOrNull ((i.itemPrice.bind (fun m => m.amount)).getD "")
    shippingCost :=
      jsOrNull ((i.shippingPrice.bind (fun m => m.amount)).getD "")
    customerType := if contactPerson = "" then "Privat" else "Firma"
    shippingCarrier := none
    trackingNumber := none
    shippingDate := none
    status := "Offen" }

/-- Counterexample to C3: an eBay row carrying `Versandservice` and
`Sendungsnummer` values is mapped with non-null shipping carrier and
tracking number — the eBay mapper does not leave all shipping fields
null. -/
theorem mapEbayRecord_presets_shipping_fields :
    (mapEbayRecord (fun s => s) (fun s => s)
        [("Verkaufsprotokollnummer", "777"), ("Versandservice", "DHL"),
          ("Sendungsnummer", "TRK1")]).shippingCarrier = some "DHL" ∧
      (mapEbayRecord (fun s => s) (fun s => s)
          [("Verkaufsprotokollnummer", "777"), ("Versandservice", "DHL"),
            ("Sendungsnummer", "TRK1")]).trackingNumber = some "TRK1" := by
  decide

/-- C3 (amended): for every raw row the Amazon-dialect mapper and the
remote variant produce candidates whose `shippingCarrier`,
`trackingNumber` and `shippingDate` are all null with status `"Offen"`;
the eBay mapper always leaves `shippingDate` null and status `"Offen"`,
but copies `shippingCarrier` and `trackingNumber` from the row's
`Versandservice` and `Sendungsnummer` columns (null when blank or
absent). -/
theorem mapper_shipping_fields_initial
    (normDate priceF parseDate priceG : String → String) (r r2 : Row)
    (o : AmazonOrder) (i : AmazonOrderItem) :
    (mapAmazonRecord normDate priceF r).shippingCarrier = none ∧
      (mapAmazonRecord normDate priceF r).trackingNumber = none ∧
      (mapAmazonRecord normDate priceF r).shippingDate = none ∧
      (mapAmazonRecord normDate priceF r).status = "Offen" ∧
      (mapEbayRecord parseDate priceG r2).shippingDate = none ∧
      (mapEbayRecord parseDate priceG r2).status = "Offen" ∧
      (mapEbayRecord parseDate priceG r2).shippingCarrier =
        jsOrNull (getS r2 "Versandservice") ∧
      (mapEbayRecord parseDate priceG r2).trackingNumber =
        jsOrNull (getS r2 "Sendungsnummer") ∧
      (mapOrderToSchema o i).shippingCarrier = none ∧
      (mapOrderToSchema o i).trackingNumber = none ∧
      (mapOrderToSchema o i).shippingDate = none ∧
      (mapOrderToSchema o i).status = "Offen" :=
  ⟨rfl, rfl, rfl, rfl, rfl, rfl, rfl, rfl, rfl, rfl, rfl, rfl⟩

theorem parseIntOr1_spec (s : String) :
    parseIntOr1 s ≠ 0 ∧
      (parseIntJS s = none → parseIntOr1 s = 1) ∧
      (parseIntJS s = some 0 → parseIntOr1 s = 1) ∧
      (∀ n : Int, n ≠ 0 → parseIntJS s = some n → parseIntOr1 s = n) := by
  rcases h : parseIntJS s with _ | m
  · have he : parseIntOr1 s = 1 := by unfold parseIntOr1; rw [h]
    refine ⟨by rw [he]; exact one_ne_zero, fun _ => he, fun hc => ?_,
      fun n hn hc => ?_⟩ <;> cases hc
  · have he : parseIntOr1 s = if m = 0 then 1 else m := by
      unfold parseIntOr1; rw [h]
    by_cases hm : m = 0
    · subst hm
      rw [if_pos rfl] at he
      refine ⟨by rw [he]; exact one_ne_zero, fun hc => ?_, fun _ => he,
        fun n hn hc => ?_⟩
      · cases hc
      · injection hc with hc
        exact absurd hc.symm hn
    · rw [if_neg hm] at he
      refine ⟨by rw [he]; exact hm, fun hc => ?_, fun hc => ?_,
        fun n hn hc => ?_⟩
      · cases hc
      · injection hc with hc
        exact absurd hc hm
      · injection hc with hc
        rw [he, hc]

theorem jsOr_assoc (a b c : String) :
    jsOr a (jsOr b c) = jsOr (jsOr a b) c := by
  unfold jsOr
  by_cases ha : a = "" <;> by_cases hb : b = "" <;> simp [ha, hb]

/-- The `parseInt(field || "1", 10) || 1` idiom shared by both tabular
mappers: never zero, defaults to 1 on a blank or unparseable field or a
parsed zero, and passes any other parsed integer through. -/
theorem quantity_of_field (s : String) :
    parseIntOr1 (jsOr s "1") ≠ 0 ∧
      ((s = "" ∨ parseIntJS s = none ∨ parseIntJS s = some 0) →
        parseIntOr1 (jsOr s "1") = 1) ∧
      (∀ n : Int, n ≠ 0 → parseIntJS s = some n →
        parseIntOr1 (jsOr s "1") = n) := by
  by_cases hs : s = ""
  · subst hs
    simp only [jsOr, if_pos rfl]
    refine ⟨by decide, fun _ => by decide, fun n hn hp => ?_⟩
    have h0 : parseIntJS "" = none := rfl
    rw [h0] at hp
    cases hp
  · rw [jsOr, if_neg hs]
    obtain ⟨h1, h2, h3, h4⟩ := parseIntOr1_spec s
    refine ⟨h1, fun hc => ?_, h4⟩
    rcases hc with hc | hc | hc
    · exact absurd hc hs
    · exact h2 hc
    · exact h3 hc

/-- Counterexample to C8: an Amazon row with `quantity-purchased = "-2"`
maps to quantity `-2`, which is below 1 — negative parsed quantities pass
through. -/
theorem mapAmazonRecord_negative_quantity :
    (mapAmazonRecord (fun s => s) (fun s => s)
        [("quantity-purchased", "-2")]).quantity = -2 ∧
      (mapAmazonRecord (fun s => s) (fun s => s)
          [("quantity-purchased", "-2")]).quantity < 1 := by
  decide

/-- C8 (amended): for every raw row the mapped quantity is a nonzero
integer; it equals 1 whenever the row's quantity field is absent, empty,
not parseable as an integer, or parses to 0, and otherwise equals the
parsed integer — which may be negative, so quantity ≥ 1 is not
guaranteed. -/
theorem mapped_quantity_default
    (normDate priceF parseDate priceG : String → String) (r r2 : Row) :
    (mapAmazonRecord normDate priceF r).quantity ≠ 0 ∧
      ((getS r "quantity-purchased" = "" ∨
          parseIntJS (getS r "quantity-purchased") = none ∨
          parseIntJS (getS r "quantity-purchased") = some 0) →
        (mapAmazonRecord normDate priceF r).quantity = 1) ∧
      (∀ n : Int, n ≠ 0 → parseIntJS (getS r "quantity-purchased") = some n →
        (mapAmazonRecord normDate priceF r).quantity = n) ∧
      (mapEbayRecord parseDate priceG r2).quantity ≠ 0 ∧
      ((jsOr (getS r2 "Anzahl") (getS r2 "Menge") = "" ∨
          parseIntJS (jsOr (getS r2 "Anzahl") (getS r2 "Menge")) = none ∨
          parseIntJS (jsOr (getS r2 "Anzahl") (getS r2 "Menge")) = some 0) →
        (mapEbayRecord parseDate priceG r2).quantity = 1) ∧
      (∀ n : Int, n ≠ 0 →
        parseIntJS (jsOr (getS r2 "Anzahl") (getS r2 "Menge")) = some n →
        (mapEbayRecord parseDate priceG r2).quantity = n) := by
  have ha : (mapAmazonRecord normDate priceF r).quantity =
      parseIntOr1 (jsOr (getS r "quantity-purchased") "1") := rfl
  have hb : (mapEbayRecord parseDate priceG r2).quantity =
      parseIntOr1 (jsOr (jsOr (getS r2 "Anzahl") (getS r2 "Menge")) "1") := by
    show parseIntOr1 (jsOr (getS r2 "Anzahl") (jsOr (getS r2 "Menge") "1")) =
      parseIntOr1 (jsOr (jsOr (getS r2 "Anzahl") (getS r2 "Menge")) "1")
    rw [jsOr_assoc]
  obtain ⟨ga1, ga2, ga3⟩ := quantity_of_field (getS r "quantity-purchased")
  obtain ⟨gb1, gb2, gb3⟩ :=
    quantity_of_field (jsOr (getS r2 "Anzahl") (getS r2 "Menge"))
  rw [ha, hb]
  exact ⟨ga1, ga2, ga3, gb1, gb2, gb3⟩

/-- Witness for C8's amended theorem: an unparseable Amazon quantity and a
wholly absent eBay quantity both default to 1. -/
theorem mapped_quantity_default_witness :
    (mapAmazonRecord (fun s => s) (fun s => s)
        [("quantity-purchased", "abc")]).quantity = 1 ∧
      (mapEbayRecord (fun s => s) (fun s => s) []).quantity = 1 :=
  ⟨(mapped_quantity_default (fun s => s) (fun s => s) (fun s => s)
        (fun s => s) [("quantity-purchased", "abc")] []).2.1
      (Or.inr (Or.inl (by decide))),
    (mapped_quantity_default (fun s => s) (fun s => s) (fun s => s)
        (fun s => s) [("quantity-purchased", "abc")] []).2.2.2.2.1
      (Or.inl (by decide))⟩

/-! ## Batch import with in-file deduplication
(`POST /api/orders/import` and `DatabaseStorage.createOrders`) -/

/-- The per-file filter loop of the import route: a mapped candidate is
dropped when its `orderItemId` is empty or the bare `"ebay-"` marker, or
when the id was already seen earlier in this batch (first occurrence
wins). -/
def dedupBatch : List Candidate → List String → List Candidate
  | [], _ => []
  | c :: cs, seen =>
    if c.orderItemId = "" ∨ c.orderItemId = "ebay-" then dedupBatch cs seen
    else if c.orderItemId ∈ seen then dedupBatch cs seen
    else c :: dedupBatch cs (c.orderItemId :: seen)

/-- Loop body of `DatabaseStorage.createOrders`: per candidate, a store
row with the same `orderItemId` makes it a duplicate, otherwise it is
inserted and counted. -/
def createOrdersGo : List Candidate → List Candidate → Nat → List String →
    List Candidate × Nat × List String
  | [], store, imp, dups => (store, imp, dups)
  | c :: cs, store, imp, dups =>
    if store.any (fun e => e.orderItemId = c.orderItemId) then
      createOrdersGo cs store imp (dups ++ [c.orderItemId])
    else
      createOrdersGo cs (store ++ [c]) (imp + 1) dups

/-- The result of one import operation. -/
structure ImportReport where
  imported : Nat
  duplicates : Nat
  duplicateIds : List String
deriving Repr, DecidableEq

/-- `DatabaseStorage.createOrders`: returns the new store contents and
the import report. -/
def createOrders (orderList store : List Candidate) :
    List Candidate × ImportReport :=
  let res := createOrdersGo orderList store 0 []
  (res.1,
    { imported := res.2.1, duplicates := res.2.2.length,
      duplicateIds := res.2.2 })

/-- The import orchestration at the mapped-candidate level: in-batch
dedup, then the store's batch insert. -/
def importOrders (cs store : List Candidate) :
    List Candidate × ImportReport :=
  createOrders (dedupBatch cs []) store

theorem dedupBatch_eq_self :
    ∀ (cs : List Candidate) (seen : List String),
      (∀ c ∈ cs, c.orderItemId ≠ "" ∧ c.orderItemId ≠ "ebay-") →
      (cs.map (fun c => c.orderItemId)).Nodup →
      (∀ c ∈ cs, c.orderItemId ∉ seen) →
      dedupBatch cs seen = cs := by
  intro cs
  induction cs with
  | nil => intro seen _ _ _; rfl
  | cons c cs ih =>
    intro seen hform hnodup hseen
    have h1 := hform c (List.mem_cons_self c cs)
    have hmapcons : ((c :: cs).map (fun c => c.orderItemId)).Nodup ↔
        (c.orderItemId ∉ cs.map (fun c => c.orderItemId) ∧
          (cs.map (fun c => c.orderItemId)).Nodup) := by
      rw [List.map_cons, List.nodup_cons]
    obtain ⟨hhead, htail⟩ := hmapcons.mp hnodup
    simp only [dedupBatch]
    rw [if_neg (by push_neg; exact h1),
      if_neg (hseen c (List.mem_cons_self c cs))]
    refine congrArg (List.cons c) (ih (c.orderItemId :: seen) ?_ htail ?_)
    · intro x hx; exact hform x (List.mem_cons_of_mem _ hx)
    · intro x hx hmem
      rcases List.mem_cons.mp hmem with heq | hmem'
      · exact hhead (heq ▸ List.mem_map_of_mem _ hx)
      · exact hseen x (List.mem_cons_of_mem _ hx) hmem'

theorem createOrdersGo_fresh :
    ∀ (cs store : List Candidate) (imp : Nat) (dups : List String),
      (∀ c ∈ cs, ∀ e ∈ store, e.orderItemId ≠ c.orderItemId) →
      (cs.map (fun c => c.orderItemId)).Nodup →
      createOrdersGo cs store imp dups =
        (store ++ cs, imp + cs.length, dups) := by
  intro cs
  induction cs with
  | nil => intro store imp dups _ _; simp [createOrdersGo]
  | cons c cs ih =>
    intro store imp dups hfresh hnodup
    have hmapcons : ((c :: cs).map (fun c => c.orderItemId)).Nodup ↔
        (c.orderItemId ∉ cs.map (fun c => c.orderItemId) ∧
          (cs.map (fun c => c.orderItemId)).Nodup) := by
      rw [List.map_cons, List.nodup_cons]
    obtain ⟨hhead, htail⟩ := hmapcons.mp hnodup
    have hany : store.any (fun e => e.orderItemId = c.orderItemId)
        = false := by
      rw [List.any_eq_false]
      intro e he
      simp only [decide_eq_true_eq]
      exact hfresh c (List.mem_cons_self c cs) e he
    have hcond :
        ¬(store.any (fun e => e.orderItemId = c.orderItemId) = true) := by
      rw [hany]; exact Bool.false_ne_true
    simp only [createOrdersGo]
    rw [if_neg hcond]
    have hfresh' : ∀ x ∈ cs, ∀ e ∈ store ++ [c],
        e.orderItemId ≠ x.orderItemId := by
      intro x hx e he
      rcases List.mem_append.mp he with he' | he'
      · exact hfresh x (List.mem_cons_of_mem _ hx) e he'
      · rcases List.mem_singleton.mp he' with rfl
        intro heq
        exact hhead (heq ▸ List.mem_map_of_mem _ hx)
    rw [ih (store ++ [c]) (imp + 1) dups hfresh' htail]
    simp [List.append_assoc, Prod.ext_iff]
    omega

theorem createOrdersGo_all_dup :
    ∀ (cs store : List Candidate) (imp : Nat) (dups : List String),
      (∀ c ∈ cs,
        store.any (fun e => e.orderItemId = c.orderItemId) = true) →
      createOrdersGo cs store imp dups =
        (store, imp, dups ++ cs.map (fun c => c.orderItemId)) := by
  intro cs
  induction cs with
  | nil => intro store imp dups _; simp [createOrdersGo]
  | cons c cs ih =>
    intro store imp dups hdup
    simp only [createOrdersGo]
    rw [if_pos (hdup c (List.mem_cons_self c cs))]
    rw [ih store imp (dups ++ [c.orderItemId])
      (fun x hx => hdup x (List.mem_cons_of_mem _ hx))]
    simp [List.append_assoc]

/-- C6: importing the same batch of N well-formed candidates (mappable,
pairwise-distinct `orderItemId`s, none already stored) twice against the
same store reports `imported = N, duplicates = 0` the first time and
`imported = 0, duplicates = N` the second time, and the second import
leaves the stored order set unchanged. -/
theorem importOrders_idempotent (cs store0 : List Candidate)
    (hform : ∀ c ∈ cs, c.orderItemId ≠ "" ∧ c.orderItemId ≠ "ebay-")
    (hnodup : (cs.map (fun c => c.orderItemId)).Nodup)
    (hfresh : ∀ c ∈ cs, ∀ e ∈ store0, e.orderItemId ≠ c.orderItemId) :
    (importOrders cs store0).2.imported = cs.length ∧
      (importOrders cs store0).2.duplicates = 0 ∧
      (importOrders cs (importOrders cs store0).1).2.imported = 0 ∧
      (importOrders cs (importOrders cs store0).1).2.duplicates =
        cs.length ∧
      (importOrders cs (importOrders cs store0).1).1 =
        (importOrders cs store0).1 := by
  have hd : dedupBatch cs [] = cs :=
    dedupBatch_eq_self cs [] hform hnodup
      (fun c _ => List.not_mem_nil c.orderItemId)
  have h1 : createOrdersGo cs store0 0 [] =
      (store0 ++ cs, cs.length, []) := by
    have h := createOrdersGo_fresh cs store0 0 [] hfresh hnodup
    simpa using h
  have hio1 : importOrders cs store0 =
      (store0 ++ cs,
        { imported := cs.length, duplicates := 0, duplicateIds := [] }) := by
    unfold importOrders createOrders
    rw [hd, h1]
    rfl
  have hdup : ∀ c ∈ cs,
      (store0 ++ cs).any (fun e => e.orderItemId = c.orderItemId)
        = true := by
    intro c hc
    rw [List.any_eq_true]
    exact ⟨c, List.mem_append_right _ hc, by simp⟩
  have h2 : createOrdersGo cs (store0 ++ cs) 0 [] =
      (store0 ++ cs, 0, cs.map (fun c => c.orderItemId)) := by
    have h := createOrdersGo_all_dup cs (store0 ++ cs) 0 [] hdup
    simpa using h
  have hio2 : importOrders cs (store0 ++ cs) =
      (store0 ++ cs,
        { imported := 0,
          duplicates := (cs.map (fun c => c.orderItemId)).length,
          duplicateIds := cs.map (fun c => c.orderItemId) }) := by
    unfold importOrders createOrders
    rw [hd, h2]
  rw [hio1]
  refine ⟨rfl, rfl, ?_, ?_, ?_⟩ <;> simp [hio2]

/-- A minimal candidate with a given item id, for concrete import runs. -/
def mkCand (id : String) : Candidate :=
  { platform := "Amazon", purchaseDate := "", orderId := "",
    orderItemId := id, email := "", phone := "", firstName := "",
    lastName := "", street := "", contactPerson := none, city := "",
    postalCode := "", country := "", sku := "", productName := "",
    quantity := 1, price := none, shippingCost := none,
    customerType := "Privat", shippingCarrier := none,
    trackingNumber := none, shippingDate := none, status := "Offen" }

/-- Witness for C6: two fresh candidates imported twice into an empty
store. -/
theorem importOrders_idempotent_witness :
    (importOrders [mkCand "a", mkCand "b"] []).2.imported =
        ([mkCand "a", mkCand "b"] : List Candidate).length ∧
      (importOrders [mkCand "a", mkCand "b"] []).2.duplicates = 0 ∧
      (importOrders [mkCand "a", mkCand "b"]
          (importOrders [mkCand "a", mkCand "b"] []).1).2.imported = 0 ∧
      (importOrders [mkCand "a", mkCand "b"]
          (importOrders [mkCand "a", mkCand "b"] []).1).2.duplicates =
        ([mkCand "a", mkCand "b"] : List Candidate).length ∧
      (importOrders [mkCand "a", mkCand "b"]
          (importOrders [mkCand "a", mkCand "b"] []).1).1 =
        (importOrders [mkCand "a", mkCand "b"] []).1 :=
  importOrders_idempotent [mkCand "a", mkCand "b"] [] (by decide)
    (by decide) (by decide)

/-! ## Delimiter detection (`detectDelimiter`) -/

/-- `detectDelimiter` (`server/routes.ts`): tab wins whenever the header
line contains one; otherwise semicolon iff semicolons strictly outnumber
commas, comma by default. -/
def detectDelimiter (firstLine : String) : String :=
  if '\t' ∈ firstLine.data then "\t"
  else if (firstLine.data.filter (fun c => c = ';')).length >
      (firstLine.data.filter (fun c => c = ',')).length then ";"
  else ","

theorem length_filter_eq_count (x : Char) (l : List Char) :
    (l.filter (fun c => c = x)).length = l.count x := by
  induction l with
  | nil => rfl
  | cons a as ih => by_cases h : a = x <;> simp [List.count_cons, h, ih]

/-- C7: a header line containing at least one tab character is always
detected as tab-delimited, however many commas or semicolons it also
contains; without tabs the delimiter is semicolon when semicolons
outnumber commas and comma otherwise. -/
theorem detectDelimiter_tab_priority (line : String) :
    ('\t' ∈ line.data → detectDelimiter line = "\t") ∧
      ('\t' ∉ line.data →
        detectDelimiter line =
          (if line.data.count ',' < line.data.count ';' then ";"
           else ",")) := by
  constructor
  · intro h
    unfold detectDelimiter
    rw [if_pos h]
  · intro h
    unfold detectDelimiter
    rw [if_neg h, length_filter_eq_count, length_filter_eq_count]

/-- Witness for C7: a line with a tab plus commas and semicolons is
tab-delimited; a tab-free line with more semicolons than commas is
semicolon-delimited. -/
theorem detectDelimiter_tab_priority_witness :
    detectDelimiter "a,b;;c\td" = "\t" ∧
      detectDelimiter "x;y;z,w" = ";" :=
  ⟨(detectDelimiter_tab_priority "a,b;;c\td").1 (by decide),
    by
      have h := (detectDelimiter_tab_priority "x;y;z,w").2 (by decide)
      rw [h]
      decide⟩

/-! ## Rate-limit retry wrapper (`fetchWithRetry`) -/

/-- The terminal error thrown after the retry budget is exhausted. -/
def rateLimitMsg : String :=
  "Rate limit: Zu viele Anfragen an die Amazon API. Bitte später erneut versuchen."

/-- `Math.pow(2, attempt) * 2000`: the backoff sleep before the next
attempt. -/
def backoffWait (attempt : Nat) : Nat :=
  2 ^ attempt * 2000

/-- Loop of `fetchWithRetry`, with the remaining attempt budget as fuel:
the result pairs the list of sleeps actually performed (in order) with
either the first non-429 response status or the terminal error. The
response of attempt `n` is `fetch n`. -/
def runRetry (fetch : Nat → Nat) :
    Nat → Nat → List Nat × Except String Nat
  | 0, _ => ([], Except.error rateLimitMsg)
  | k + 1, attempt =>
    if fetch attempt = 429 then
      let rest := runRetry fetch k (attempt + 1)
      (backoffWait attempt :: rest.1, rest.2)
    else ([], Except.ok (fetch attempt))

/-- `fetchWithRetry` with its default budget of three attempts. -/
def fetchWithRetry (fetch : Nat → Nat) (maxRetries : Nat := 3) :
    List Nat × Except String Nat :=
  runRetry fetch maxRetries 0

theorem runRetry_succ (fetch : Nat → Nat) (k attempt : Nat) :
    runRetry fetch (k + 1) attempt =
      if fetch attempt = 429 then
        (backoffWait attempt :: (runRetry fetch k (attempt + 1)).1,
          (runRetry fetch k (attempt + 1)).2)
      else ([], Except.ok (fetch attempt)) := rfl

/-- C9: a non-rate-limited attempt is returned immediately (after exactly
one backoff sleep per preceding 429); the sleeps double per attempt from
the fixed 2000 ms base; and three consecutive 429 responses exhaust the
budget and end in the terminal rate-limit error. -/
theorem fetchWithRetry_spec (fetch : Nat → Nat) :
    (∀ k < 3, (∀ j < k, fetch j = 429) → fetch k ≠ 429 →
      fetchWithRetry fetch =
        ((List.range k).map backoffWait, Except.ok (fetch k))) ∧
      ((∀ j < 3, fetch j = 429) →
        fetchWithRetry fetch =
          ((List.range 3).map backoffWait,
            Except.error rateLimitMsg)) ∧
      (∀ j, backoffWait (j + 1) = 2 * backoffWait j) ∧
      backoffWait 0 = 2000 := by
  refine ⟨?_, ?_, ?_, rfl⟩
  · intro k hk hbefore hnot
    unfold fetchWithRetry
    interval_cases k
    · rw [show (3 : Nat) = 2 + 1 from rfl, runRetry_succ, if_neg hnot]
      simp
    · rw [show (3 : Nat) = 2 + 1 from rfl, runRetry_succ,
        if_pos (hbefore 0 (by omega)),
        show (2 : Nat) = 1 + 1 from rfl, runRetry_succ, if_neg hnot]
      simp [List.range_succ]
    · rw [show (3 : Nat) = 2 + 1 from rfl, runRetry_succ,
        if_pos (hbefore 0 (by omega)),
        show (2 : Nat) = 1 + 1 from rfl, runRetry_succ,
        if_pos (hbefore 1 (by omega)),
        show (1 : Nat) = 0 + 1 from rfl, runRetry_succ, if_neg hnot]
      simp [List.range_succ]
  · intro hall
    unfold fetchWithRetry
    rw [show (3 : Nat) = 2 + 1 from rfl, runRetry_succ,
      if_pos (hall 0 (by omega)),
      show (2 : Nat) = 1 + 1 from rfl, runRetry_succ,
      if_pos (hall 1 (by omega)),
      show (1 : Nat) = 0 + 1 from rfl, runRetry_succ,
      if_pos (hall 2 (by omega))]
    simp [runRetry, List.range_succ]
  · intro j
    simp [backoffWait, pow_succ]
    ring

/-- Witness for C9: a single 429 followed by a 200 yields one 2000 ms
sleep and the 200 response. -/
theorem fetchWithRetry_spec_witness :
    fetchWithRetry (fun n => if n = 0 then 429 else 200) =
      ([2000], Except.ok 200) := by
  have h := (fetchWithRetry_spec (fun n => if n = 0 then 429 else 200)).1
    1 (by omega) (by decide) (by decide)
  rw [h]
  rfl
